import Mathlib

/-!
Verification development for the meeseeks-box command-execution backend.

The development embeds, as Lean definitions:
 - the Job Store (`jobs` package), modelled from the spec because only its
   tests and callers are present in the sources;
 - the Dispatcher `Execute` entry point, likewise modelled from the spec;
 - the remote command pipeline server (`server` package,
   `CommandPipelineServer.RegisterAgent` / `CommandPipelineServer.Finish`),
   translated from the source;
 - the reply formatter (`formatter` package), translated from the source.
-/

namespace Meeseeks

/-- Job status: one of `Running`, `Successful`, `Failed`, `Errored`,
`Cancelled`; `Running` is the only non-terminal state. -/
inductive JobStatus
  | Running
  | Successful
  | Failed
  | Errored
  | Cancelled
  deriving DecidableEq, Repr

/-- A status is terminal exactly when it is not `Running`. -/
def JobStatus.isTerminal : JobStatus → Bool
  | .Running => false
  | _ => true

/-- The immutable command invocation (mirrors `request.Request` from the
sources: command name, arguments, originating user/channel identifiers and a
flag distinguishing direct-message vs channel context). -/
structure Request where
  command : String
  channel : String
  channelID : String
  channelLink : String
  userID : String
  username : String
  userLink : String
  args : List String
  isIM : Bool
  deriving DecidableEq, Repr

/-- One job record per command invocation, as in the spec data model. -/
structure Job where
  id : Nat
  request : Request
  status : JobStatus
  startTime : Nat
  endTime : Option Nat
  errorMessage : Option String
  deriving DecidableEq, Repr

/-- Errors surfaced by the Job Store. -/
inductive StoreError
  | InvalidTransition
  | StorageError
  deriving DecidableEq, Repr

/-- Modelled from the spec: the Job Store (the `jobs` package) is not under
src/, only its tests and callers are. Its state is the single global id
counter and the record map; records are kept newest-first. -/
structure Store where
  nextID : Nat
  jobs : List Job
  deriving DecidableEq, Repr

/-- The store before any job has been created. -/
def Store.empty : Store := { nextID := 0, jobs := [] }

/-- Modelled from the spec: `Create(request) -> Job` allocates the next `id`
atomically, sets `status=Running`, `startTime=now`, persists the record and
returns a copy. -/
def Store.Create (s : Store) (req : Request) (now : Nat) : Job × Store :=
  let j : Job :=
    { id := s.nextID + 1, request := req, status := .Running,
      startTime := now, endTime := none, errorMessage := none }
  (j, { nextID := s.nextID + 1, jobs := j :: s.jobs })

/-- Modelled from the spec: `Find(id) -> Job, found` is lookup by identity. -/
def Store.Find (s : Store) (id : Nat) : Option Job :=
  s.jobs.find? (fun j => j.id == id)

/-- Modelled from the spec: `Finish(id, status, error) -> error`. The status
must be exactly one of the terminal statuses; the call fails with
`InvalidTransition` if the job is already terminal or does not exist; on
success it persists `endTime` and, if provided, `errorMessage`. The store is
returned alongside the error so that "the record is unchanged on failure" is
expressible. -/
def Store.Finish (s : Store) (id : Nat) (status : JobStatus)
    (errMsg : Option String) (now : Nat) : Store × Option StoreError :=
  if status.isTerminal = false then (s, some .InvalidTransition)
  else
    match s.Find id with
    | none => (s, some .InvalidTransition)
    | some j =>
      if j.status.isTerminal then (s, some .InvalidTransition)
      else
        ({ nextID := s.nextID,
           jobs := s.jobs.map fun j2 =>
             if j2.id == id then
               { j2 with
                 status := status
                 endTime := some now
                 errorMessage := errMsg }
             else j2 },
         none)

/-- Audit filter: an optional requesting user and an optional maximum result
count. -/
structure JobFilter where
  user : Option String
  limit : Option Nat
  deriving DecidableEq, Repr

/-- Modelled from the spec: `Query(filter) -> ordered sequence of Job` filters
by requesting user and/or a maximum result count; results are ordered
newest-first by `id` and fully materialized. -/
def Store.Query (s : Store) (f : JobFilter) : List Job :=
  let matched := s.jobs.filter fun j =>
    match f.user with
    | none => true
    | some u => j.request.username == u
  let sorted := List.insertionSort (fun a b => b.id ≤ a.id) matched
  match f.limit with
  | none => sorted
  | some n => sorted.take n

/-- Runs a sequence of `Create` calls (one serialization of the concurrent
callers), returning the final store and the ids handed out, in call order. -/
def Store.CreateAll : Store → List (Request × Nat) → Store × List Nat
  | s, [] => (s, [])
  | s, (req, now) :: rest =>
    let p := s.Create req now
    let q := p.2.CreateAll rest
    (q.1, p.1.id :: q.2)

/-- Newest-first comparison used by the audit query. -/
instance : IsTotal Job (fun a b => b.id ≤ a.id) :=
  ⟨fun a b => Nat.le_total b.id a.id⟩

instance : IsTrans Job (fun a b => b.id ≤ a.id) :=
  ⟨fun _ _ _ hab hbc => Nat.le_trans hbc hab⟩

/-- The request used in the audit example, for a given requesting user. -/
def reqUser (u : String) : Request :=
  { command := "command", channel := "general", channelID := "123",
    channelLink := "<#123>", userID := "someoneID", username := u,
    userLink := "", args := [], isIM := false }

/-- Store of the audit example: jobs 1, 3, 4 belong to user "a" and jobs
2, 5 to user "b". -/
def exampleStore : Store :=
  (Store.empty.CreateAll
    [(reqUser "a", 0), (reqUser "b", 0), (reqUser "a", 0),
     (reqUser "a", 0), (reqUser "b", 0)]).1

/-- A one-job store whose single job is already terminal. -/
def finishedStore : Store :=
  ((Store.empty.Create (reqUser "a") 0).2.Finish 1 JobStatus.Successful
    none 3).1

/-- The terminal job held by `finishedStore`. -/
def finishedJob : Job :=
  { id := 1, request := reqUser "a", status := .Successful,
    startTime := 0, endTime := some 3, errorMessage := none }

/-- The fourth job of `exampleStore`, the newest one belonging to user
"a". -/
def exampleJob4 : Job :=
  { id := 4, request := reqUser "a", status := .Running,
    startTime := 0, endTime := none, errorMessage := none }

/-- Agent registration data, mirroring `api.AgentConfiguration` from the
source: a token, labels, and the declared command capabilities. -/
structure AgentConfiguration where
  token : String
  labels : List (String × String)
  commands : List String
  deriving DecidableEq, Repr

/-- Completion report, mirroring `api.CommandFinish` from the source:
`JobID`, terminal status, optional error text. -/
structure CommandFinish where
  jobID : Nat
  status : String
  error : String
  deriving DecidableEq, Repr

/-- The shared pipeline state the spec describes: the worker registry keyed
by token, the set of pending waits keyed by job id, the results delivered on
wait signals, and the job store. In the source, `CommandPipelineServer` is an
empty struct with no fields: its methods neither read nor write any of
this state. -/
structure PipelineState where
  workers : List (String × AgentConfiguration)
  waits : List Nat
  delivered : List (Nat × CommandFinish)
  store : Store
  deriving DecidableEq, Repr

/-- Embeds `CommandPipelineServer.RegisterAgent` from the source: the method
body is `return nil`. Lifted to a state transformer over the shared pipeline
state, it leaves the state unchanged and returns a nil error; the handler
returning is also the end of the agent's stream, so this transformer covers
the connection's whole lifetime, registration through close. -/
def CommandPipelineServer.RegisterAgent (s : PipelineState)
    (_ : AgentConfiguration) : PipelineState × Option String :=
  (s, none)

/-- Embeds `CommandPipelineServer.Finish` from the source: the method body is
`return nil, nil`. Lifted to a state transformer over the shared pipeline
state, it leaves the state unchanged and returns a nil reply and a nil
error. -/
def CommandPipelineServer.Finish (s : PipelineState)
    (_ : CommandFinish) : PipelineState × (Option Unit × Option String) :=
  (s, (none, none))

/-- A pipeline state with no workers, no waits and an empty store. -/
def emptyPipeline : PipelineState :=
  { workers := [], waits := [], delivered := [], store := Store.empty }

/-- A pipeline state holding a pending wait for job 1, whose store holds
job 1 still `Running`. -/
def waitPipeline : PipelineState :=
  { workers := [], waits := [1], delivered := [],
    store := (Store.empty.Create (reqUser "a") 0).2 }

/-- An agent configuration presenting a token and one capability. -/
def cfgT : AgentConfiguration :=
  { token := "worker-token", labels := [], commands := ["deploy"] }

/-- Errors returned by the Dispatcher, per the spec taxonomy. -/
inductive DispatchError
  | UnknownCommand
  | Unauthorized
  | NoWorkerAvailable
  | Cancelled
  | CommandFailed (msg : String)
  deriving DecidableEq, Repr

/-- How a registered command executes: locally via an execution function, or
on a remote worker advertising the capability. -/
inductive Runner
  | localRunner (f : Request → Except String String)
  | remoteRunner

/-- A command descriptor: an authorization requirement (a named strategy)
and either a local execution function or a remote marker. -/
structure CommandDescriptor where
  authStrategy : String
  runner : Runner

/-- Modelled from the spec: the Dispatcher (its `Execute(ctx, request)`
entry point) is not under src/. Steps, per the spec: (1) resolve the command
descriptor, failing with `UnknownCommand` if absent; (2) evaluate
authorization against the collaborator-supplied requester groups, failing
with `Unauthorized` when the strategy is not satisfied; (3) create a Job;
(4) local commands run the execution function and finish the Job
`Successful` or `Failed`; (5) remote commands need a connected worker whose
capability set contains the command name, else the Job is finished `Errored`
and `NoWorkerAvailable` is returned; the worker's eventual completion report
is supplied abstractly by `outcome`. -/
def Execute (registry : String → Option CommandDescriptor)
    (evaluate : String → List String → Bool)
    (requesterGroups : List String)
    (workers : List AgentConfiguration)
    (outcome : Nat → JobStatus × Option String)
    (s : Store) (req : Request) (now : Nat) :
    Except DispatchError String × Store :=
  match registry req.command with
  | none => (.error .UnknownCommand, s)
  | some d =>
    if evaluate d.authStrategy requesterGroups = false then
      (.error .Unauthorized, s)
    else
      let p := s.Create req now
      match d.runner with
      | .localRunner f =>
        match f req with
        | .ok out => (.ok out, (p.2.Finish p.1.id .Successful none now).1)
        | .error msg =>
          (.error (.CommandFailed msg),
           (p.2.Finish p.1.id .Failed (some msg) now).1)
      | .remoteRunner =>
        if workers.any (fun w => w.commands.contains req.command) then
          let r := outcome p.1.id
          match r.1 with
          | .Successful => (.ok "", (p.2.Finish p.1.id .Successful none now).1)
          | st =>
            (.error (.CommandFailed (r.2.getD "")),
             (p.2.Finish p.1.id st r.2 now).1)
        else
          (.error .NoWorkerAvailable,
           (p.2.Finish p.1.id .Errored (some "no worker available") now).1)

/-- A registry with no commands registered. -/
def regNone : String → Option CommandDescriptor := fun _ => none

/-- The descriptor of the remote-capable "deploy" command, guarded by the
"admins" strategy. -/
def descDeploy : CommandDescriptor :=
  { authStrategy := "admins", runner := .remoteRunner }

/-- A registry holding exactly the "deploy" command. -/
def regDeploy : String → Option CommandDescriptor := fun name =>
  if name = "deploy" then some descDeploy else none

/-- An authorization collaborator that denies every requester. -/
def evalDeny : String → List String → Bool := fun _ _ => false

/-- A remote outcome reporting success with no error. -/
def outSuccess : Nat → JobStatus × Option String := fun _ => (.Successful, none)

/-- A request invoking the "deploy" command. -/
def reqDeploy : Request := { reqUser "a" with command := "deploy" }

namespace template

/-- Modelled from the spec: the reply template action constants live in the
`template` package, which is not under src/; they are pairwise distinct
action names used by the formatter's switch. -/
def Handshake : String := "handshake"

/-- Action name of the unknown-command reply template. -/
def UnknownCommand : String := "unknown_command"

/-- Action name of the unauthorized reply template. -/
def Unauthorized : String := "unauthorized"

/-- Action name of the failure reply template. -/
def Failure : String := "failure"

/-- Action name of the success reply template. -/
def Success : String := "success"

end template

/-- Configured reply message colors, mirroring `MessageColors` from
formatter.go. -/
structure MessageColors where
  Info : String
  Success : String
  Error : String
  deriving DecidableEq, Repr

/-- A reply message, mirroring `Reply` from formatter.go. The
`TemplatesBuilder` internals live in the `template` package (not under
src/); the builder is modelled by its template map. -/
structure Reply where
  action : String
  request : Request
  output : String
  err : Option String
  colors : MessageColors
  templates : List (String × String)
  style : String
  deriving DecidableEq, Repr

/-- Embeds `Reply.WithOutput` from formatter.go: a value receiver that stores
the text payload and returns the updated copy. -/
def Reply.WithOutput (r : Reply) (output : String) : Reply :=
  { r with output := output }

/-- Embeds `Reply.WithError` from formatter.go: a value receiver that stores
the error and returns the updated copy. -/
def Reply.WithError (r : Reply) (err : String) : Reply :=
  { r with err := some err }

/-- Embeds `Reply.Color` from formatter.go: the Info color for a handshake,
the Error color for unknown-command, unauthorized and failure, and the
Success color for every other action (the switch's default case). -/
def Reply.Color (r : Reply) : String :=
  if r.action = template.Handshake then r.colors.Info
  else if r.action = template.UnknownCommand ∨ r.action = template.Unauthorized
      ∨ r.action = template.Failure then r.colors.Error
  else r.colors.Success

/-- A reply carrying the given action, with distinctive configured colors,
used to exercise `Reply.Color`. -/
def sampleReply (action : String) : Reply :=
  { action := action, request := reqUser "a", output := "", err := none,
    colors := { Info := "info-color", Success := "good", Error := "danger" },
    templates := [("success", "tpl")], style := "attachment" }

end Meeseeks

namespace Meeseeks

theorem createAll_ids (l : List (Request × Nat)) (s : Store) :
    (s.CreateAll l).2 = List.range' (s.nextID + 1) l.length := by
  induction l generalizing s with
  | nil => rfl
  | cons hd tl ih =>
    obtain ⟨req, now⟩ := hd
    simp only [Store.CreateAll, Store.Create, List.length_cons]
    rw [ih]
    rw [List.range'_succ]

end Meeseeks

/-- C2: when the job named by `id` is already terminal, or does not exist,
`Finish` returns the `InvalidTransition` error and leaves the store — in
particular the job's status and `endTime` — unchanged. -/
theorem finish_terminal_or_missing_invalid_transition
    (s : Meeseeks.Store) (id : Nat) (st : Meeseeks.JobStatus)
    (em : Option String) (now : Nat)
    (h : s.Find id = none ∨
      ∃ j, s.Find id = some j ∧ j.status.isTerminal = true) :
    s.Finish id st em now = (s, some Meeseeks.StoreError.InvalidTransition) := by
  unfold Meeseeks.Store.Finish
  by_cases hst : st.isTerminal = false
  · simp [hst]
  · rw [if_neg hst]
    rcases h with hnone | ⟨j, hj, hterm⟩
    · rw [hnone]
    · rw [hj]
      simp [hterm]

/-- Witness for C2: in a store whose job 1 is already `Successful`, a second
`Finish` on job 1 and a `Finish` on the absent job 2 both return
`InvalidTransition` and leave the store unchanged. -/
theorem finish_terminal_or_missing_invalid_transition_witness :
    Meeseeks.finishedStore.Finish 1 Meeseeks.JobStatus.Failed none 5
      = (Meeseeks.finishedStore, some Meeseeks.StoreError.InvalidTransition) ∧
    Meeseeks.finishedStore.Finish 2 Meeseeks.JobStatus.Successful none 5
      = (Meeseeks.finishedStore, some Meeseeks.StoreError.InvalidTransition) :=
  ⟨finish_terminal_or_missing_invalid_transition Meeseeks.finishedStore 1
      Meeseeks.JobStatus.Failed none 5
      (Or.inr ⟨Meeseeks.finishedJob, by decide, by decide⟩),
   finish_terminal_or_missing_invalid_transition Meeseeks.finishedStore 2
      Meeseeks.JobStatus.Successful none 5 (Or.inl (by decide))⟩

/-- C3: with a user filter and a limit, `Query` returns only jobs whose
request belongs to that user, ordered newest-first by id, truncated to at
most the limit; on the example store with jobs 1, 3, 4 of user "a" and
2, 5 of user "b", querying user "a" with limit 2 returns exactly the jobs
with ids 4 and 3. -/
theorem query_user_newest_first_limited
    (s : Meeseeks.Store) (u : String) (n : Nat) :
    (∀ j ∈ s.Query ⟨some u, some n⟩, j.request.username = u) ∧
    List.Pairwise (fun a b : Meeseeks.Job => b.id ≤ a.id)
      (s.Query ⟨some u, some n⟩) ∧
    (s.Query ⟨some u, some n⟩).length ≤ n ∧
    (Meeseeks.exampleStore.Query ⟨some "a", some 2⟩).map Meeseeks.Job.id
      = [4, 3] := by
  refine ⟨?_, ?_, ?_, by decide⟩
  · intro j hj
    simp only [Meeseeks.Store.Query] at hj
    have h1 := List.take_subset _ _ hj
    have h2 := (List.perm_insertionSort
      (fun a b : Meeseeks.Job => b.id ≤ a.id) _).mem_iff.mp h1
    have h3 := List.of_mem_filter h2
    simpa using h3
  · simp only [Meeseeks.Store.Query]
    exact (List.sorted_insertionSort _ _).sublist (List.take_sublist _ _)
  · simp only [Meeseeks.Store.Query]
    exact List.length_take_le _ _

/-- Witness for C3: on the example store, job 4 is among the results for
user "a" with limit 2 and its owner is "a", and the result ids are exactly
[4, 3]. -/
theorem query_user_newest_first_limited_witness :
    Meeseeks.exampleJob4.request.username = "a" ∧
    (Meeseeks.exampleStore.Query ⟨some "a", some 2⟩).map Meeseeks.Job.id
      = [4, 3] :=
  ⟨(query_user_newest_first_limited Meeseeks.exampleStore "a" 2).1
      Meeseeks.exampleJob4 (by decide),
   (query_user_newest_first_limited Meeseeks.exampleStore "a" 2).2.2.2⟩


/-- C1: starting from the empty store, any serialization of a sequence of
`Create` calls hands out exactly the ids 1, 2, ..., n in call order; these
ids are strictly increasing and pairwise distinct, so no id is ever reused
for the lifetime of the store. -/
theorem create_ids_unique_strictly_increasing_from_one
    (l : List (Meeseeks.Request × Nat)) :
    (Meeseeks.Store.empty.CreateAll l).2 = List.range' 1 l.length ∧
    List.Pairwise (· < ·) (Meeseeks.Store.empty.CreateAll l).2 ∧
    (Meeseeks.Store.empty.CreateAll l).2.Nodup := by
  rw [Meeseeks.createAll_ids l Meeseeks.Store.empty]
  exact ⟨rfl, List.pairwise_lt_range' _ _, List.nodup_range' _ _⟩

/-- C4: `Create` followed immediately by `Find` on the returned id yields a
job whose status is `Running`, whose `endTime` is absent, and whose request
equals the request passed to `Create`. -/
theorem create_then_find_running_no_endtime
    (s : Meeseeks.Store) (req : Meeseeks.Request) (now : Nat) :
    ((s.Create req now).2.Find (s.Create req now).1.id
        = some (s.Create req now).1) ∧
    (s.Create req now).1.status = Meeseeks.JobStatus.Running ∧
    (s.Create req now).1.endTime = none ∧
    (s.Create req now).1.request = req := by
  refine ⟨?_, rfl, rfl, rfl⟩
  simp [Meeseeks.Store.Create, Meeseeks.Store.Find, List.find?]

/-- C5 (code defect): `CommandPipelineServer.Finish` receives the completion
report for job 1 while a pending wait for job 1 exists, yet delivers nothing
on the wait's signal, leaves the wait pending and the store untouched, and
returns a nil reply and a nil error: the method body is `return nil, nil`. -/
theorem finish_report_ignored_despite_pending_wait :
    (Meeseeks.CommandPipelineServer.Finish Meeseeks.waitPipeline
        { jobID := 1, status := "Successful", error := "" }).1
      = Meeseeks.waitPipeline ∧
    (Meeseeks.CommandPipelineServer.Finish Meeseeks.waitPipeline
        { jobID := 1, status := "Successful", error := "" }).1.delivered
      = [] ∧
    (Meeseeks.CommandPipelineServer.Finish Meeseeks.waitPipeline
        { jobID := 1, status := "Successful", error := "" }).1.waits
      = [1] ∧
    (Meeseeks.CommandPipelineServer.Finish Meeseeks.waitPipeline
        { jobID := 1, status := "Successful", error := "" }).2
      = (none, none) :=
  ⟨rfl, rfl, rfl, rfl⟩

/-- C6 (code defect): `CommandPipelineServer.RegisterAgent`, given an agent
configuration presenting a token and a capability set, stores no Worker
Connection in the registry — no entry appears under the presented token — and
starts no forwarding loop: the method body is `return nil`. -/
theorem registerAgent_stores_no_connection :
    (Meeseeks.CommandPipelineServer.RegisterAgent Meeseeks.emptyPipeline
        Meeseeks.cfgT).1 = Meeseeks.emptyPipeline ∧
    (Meeseeks.CommandPipelineServer.RegisterAgent Meeseeks.emptyPipeline
        Meeseeks.cfgT).1.workers.lookup "worker-token" = none ∧
    (Meeseeks.CommandPipelineServer.RegisterAgent Meeseeks.emptyPipeline
        Meeseeks.cfgT).2 = none :=
  ⟨rfl, rfl, rfl⟩

/-- C7 (code defect): the `RegisterAgent` handler returning is the end of the
agent's stream, i.e. the connection closing; across the connection's whole
lifetime the job store is untouched, so job 1 — still unfinished when the
worker goes away — remains `Running` instead of being transitioned to
`Errored` with a "worker disconnected" message. -/
theorem worker_close_leaves_job_running :
    ((Meeseeks.CommandPipelineServer.RegisterAgent Meeseeks.waitPipeline
        Meeseeks.cfgT).1.store.Find 1).map Meeseeks.Job.status
      = some Meeseeks.JobStatus.Running :=
  rfl

/-- C8: when the command name is not registered, `Execute` returns the
`UnknownCommand` error and the store is unchanged; when the descriptor is
found but the requester's groups do not satisfy its strategy, `Execute`
returns the `Unauthorized` error and the store is unchanged — in both cases
no Job is created. -/
theorem execute_unknown_unauthorized_no_job
    (registry : String → Option Meeseeks.CommandDescriptor)
    (evaluate : String → List String → Bool)
    (groups : List String) (workers : List Meeseeks.AgentConfiguration)
    (outcome : Nat → Meeseeks.JobStatus × Option String)
    (s : Meeseeks.Store) (req : Meeseeks.Request) (now : Nat) :
    (registry req.command = none →
      Meeseeks.Execute registry evaluate groups workers outcome s req now
        = (.error .UnknownCommand, s)) ∧
    (∀ d, registry req.command = some d →
      evaluate d.authStrategy groups = false →
      Meeseeks.Execute registry evaluate groups workers outcome s req now
        = (.error .Unauthorized, s)) := by
  constructor
  · intro h
    simp [Meeseeks.Execute, h]
  · intro d hd hauth
    simp [Meeseeks.Execute, hd, hauth]

/-- Witness for C8: with an empty registry the dispatcher reports
`UnknownCommand`, and with the "deploy" registry but an all-denying
authorizer it reports `Unauthorized`; both on the empty store, which both
calls leave empty. -/
theorem execute_unknown_unauthorized_no_job_witness :
    Meeseeks.Execute Meeseeks.regNone Meeseeks.evalDeny [] []
        Meeseeks.outSuccess Meeseeks.Store.empty (Meeseeks.reqUser "a") 0
      = (.error .UnknownCommand, Meeseeks.Store.empty) ∧
    Meeseeks.Execute Meeseeks.regDeploy Meeseeks.evalDeny [] []
        Meeseeks.outSuccess Meeseeks.Store.empty Meeseeks.reqDeploy 0
      = (.error .Unauthorized, Meeseeks.Store.empty) :=
  ⟨(execute_unknown_unauthorized_no_job Meeseeks.regNone Meeseeks.evalDeny
      [] [] Meeseeks.outSuccess Meeseeks.Store.empty
      (Meeseeks.reqUser "a") 0).1 rfl,
   (execute_unknown_unauthorized_no_job Meeseeks.regDeploy Meeseeks.evalDeny
      [] [] Meeseeks.outSuccess Meeseeks.Store.empty
      Meeseeks.reqDeploy 0).2 Meeseeks.descDeploy rfl rfl⟩

/-- C9: `Reply.Color` returns the configured Info color when the reply's
action is the handshake action, the configured Error color when the action
is unknown-command, unauthorized or failure, and the configured Success
color for every other action. -/
theorem color_selects_by_action (r : Meeseeks.Reply) :
    (r.action = Meeseeks.template.Handshake → r.Color = r.colors.Info) ∧
    (r.action = Meeseeks.template.UnknownCommand ∨
     r.action = Meeseeks.template.Unauthorized ∨
     r.action = Meeseeks.template.Failure → r.Color = r.colors.Error) ∧
    (r.action ≠ Meeseeks.template.Handshake →
     r.action ≠ Meeseeks.template.UnknownCommand →
     r.action ≠ Meeseeks.template.Unauthorized →
     r.action ≠ Meeseeks.template.Failure →
     r.Color = r.colors.Success) := by
  refine ⟨?_, ?_, ?_⟩
  · intro h
    simp [Meeseeks.Reply.Color, h]
  · intro h
    rcases h with h | h | h <;>
      simp [Meeseeks.Reply.Color, h, Meeseeks.template.Handshake,
        Meeseeks.template.UnknownCommand, Meeseeks.template.Unauthorized,
        Meeseeks.template.Failure]
  · intro h1 h2 h3 h4
    simp only [Meeseeks.Reply.Color]
    rw [if_neg h1, if_neg (by tauto)]

/-- Witness for C9: on concrete replies, the handshake action yields the
configured Info color, the failure action the configured Error color, and an
unrelated action the configured Success color. -/
theorem color_selects_by_action_witness :
    (Meeseeks.sampleReply Meeseeks.template.Handshake).Color = "info-color" ∧
    (Meeseeks.sampleReply Meeseeks.template.Failure).Color = "danger" ∧
    (Meeseeks.sampleReply "some-other-action").Color = "good" :=
  ⟨(color_selects_by_action
      (Meeseeks.sampleReply Meeseeks.template.Handshake)).1 rfl,
   (color_selects_by_action
      (Meeseeks.sampleReply Meeseeks.template.Failure)).2.1
      (Or.inr (Or.inr rfl)),
   (color_selects_by_action (Meeseeks.sampleReply "some-other-action")).2.2
      (by decide) (by decide) (by decide) (by decide)⟩

/-- C10: `Reply.WithOutput` changes only the output field and
`Reply.WithError` changes only the err field; each returns a copy whose
action, request, templates, style and colors fields equal those of the
original, and the original value itself is never mutated (both are value
receivers, embedded as pure functions). -/
theorem withoutput_witherror_change_one_field
    (r : Meeseeks.Reply) (o e : String) :
    (r.WithOutput o).output = o ∧
    (r.WithOutput o).action = r.action ∧
    (r.WithOutput o).request = r.request ∧
    (r.WithOutput o).err = r.err ∧
    (r.WithOutput o).templates = r.templates ∧
    (r.WithOutput o).style = r.style ∧
    (r.WithOutput o).colors = r.colors ∧
    (r.WithError e).err = some e ∧
    (r.WithError e).action = r.action ∧
    (r.WithError e).request = r.request ∧
    (r.WithError e).output = r.output ∧
    (r.WithError e).templates = r.templates ∧
    (r.WithError e).style = r.style ∧
    (r.WithError e).colors = r.colors :=
  ⟨rfl, rfl, rfl, rfl, rfl, rfl, rfl, rfl, rfl, rfl, rfl, rfl, rfl, rfl⟩
